import Mathlib

/-!
Verification of the BPF syscall wrapper layer in
`libbpf_android/include/bpf/BpfUtils.h`.

The layer has two halves:

* the wrapper functions themselves (`bpf`, `createMap`, `writeToMapEntry`,
  `findMapEntry`, `deleteMapEntry`, `getNextMapKey`, `getFirstMapKey`,
  `bpfFdPin`, `bpfFdGet`, `mapRetrieve`, `attachProgram`, `detachProgram`),
  which build a `bpf_attr` value with a C++ designated initializer (all
  unmentioned fields value-initialized to zero) and issue the single
  multiplexed `bpf` syscall with `sizeof(attr)`;
* the kernel side of that syscall, which is not part of this repository;
  where a claim depends on it, it is modelled from the specification's
  description of the kernel contract (see the `Modelled from the spec`
  definitions below).

Machine integers carry no arithmetic in this code, only field assignment,
so `__u32`/`__u64` fields are embedded as `Nat`; the one narrowing cast in
the source, `static_cast<__u32>(fd.get())` on a C `int`, is embedded
explicitly as reduction of an `Int` modulo `2 ^ 32`.
-/

namespace BpfUtils

/-- The fields of the kernel `bpf_attr` union that this source file sets,
one record field per union member used, each defaulting to zero exactly as
C++ value-initialization of the unmentioned members does. -/
structure BpfAttr where
  map_type : Nat := 0
  key_size : Nat := 0
  value_size : Nat := 0
  max_entries : Nat := 0
  map_flags : Nat := 0
  map_fd : Nat := 0
  key : Nat := 0
  value : Nat := 0
  next_key : Nat := 0
  flags : Nat := 0
  pathname : Nat := 0
  bpf_fd : Nat := 0
  file_flags : Nat := 0
  target_fd : Nat := 0
  attach_bpf_fd : Nat := 0
  attach_type : Nat := 0
deriving DecidableEq, Repr

/-- `bpf_cmd` enumerator `BPF_MAP_CREATE` from `linux/bpf.h`. -/
def BPF_MAP_CREATE : Nat := 0

/-- `bpf_cmd` enumerator `BPF_MAP_LOOKUP_ELEM` from `linux/bpf.h`. -/
def BPF_MAP_LOOKUP_ELEM : Nat := 1

/-- `bpf_cmd` enumerator `BPF_MAP_UPDATE_ELEM` from `linux/bpf.h`. -/
def BPF_MAP_UPDATE_ELEM : Nat := 2

/-- `bpf_cmd` enumerator `BPF_MAP_DELETE_ELEM` from `linux/bpf.h`. -/
def BPF_MAP_DELETE_ELEM : Nat := 3

/-- `bpf_cmd` enumerator `BPF_MAP_GET_NEXT_KEY` from `linux/bpf.h`. -/
def BPF_MAP_GET_NEXT_KEY : Nat := 4

/-- `bpf_cmd` enumerator `BPF_OBJ_PIN` from `linux/bpf.h`. -/
def BPF_OBJ_PIN : Nat := 6

/-- `bpf_cmd` enumerator `BPF_OBJ_GET` from `linux/bpf.h`. -/
def BPF_OBJ_GET : Nat := 7

/-- `bpf_cmd` enumerator `BPF_PROG_ATTACH` from `linux/bpf.h`. -/
def BPF_PROG_ATTACH : Nat := 8

/-- `bpf_cmd` enumerator `BPF_PROG_DETACH` from `linux/bpf.h`. -/
def BPF_PROG_DETACH : Nat := 9

/-- The C++ `static_cast<__u32>` of a C `int`: reduction modulo `2 ^ 32`. -/
def toU32 (x : Int) : Nat := (x % (2 ^ 32 : Int)).toNat

/-- The full byte size of the `bpf_attr` union. Its exact value is fixed by
the kernel headers the source compiles against; what matters to the proofs
is that `sizeof(attr)` in the source denotes this single full-union size,
the same for every command. -/
def sizeofBpfAttr : Nat := 120

/-- One issued syscall: the command enumerator, the attribute value, and
the size argument, exactly the three arguments the source's
`syscall(__NR_bpf, cmd, &attr, sizeof(attr))` passes after the syscall
number. -/
structure Invocation where
  cmd : Nat
  attr : BpfAttr
  size : Nat
deriving DecidableEq, Repr

/-- The invocation the helper `bpf(int cmd, const bpf_attr& attr)` builds:
it always passes `sizeof(attr)`, the full union size. -/
def bpfInvocation (cmd : Nat) (attr : BpfAttr) : Invocation :=
  { cmd := cmd, attr := attr, size := sizeofBpfAttr }

/-- An arbitrary interpretation of the raw multiplexed syscall: given the
command, the attribute value and the size argument, the signed result. The
wrappers are proved correct for every interpretation, which is exactly the
statement that they add nothing of their own around the syscall. -/
structure Syscall where
  call : Nat → BpfAttr → Nat → Int

/-- Result of handing one invocation to a syscall interpretation. -/
def syscallOf (s : Syscall) (i : Invocation) : Int :=
  s.call i.cmd i.attr i.size

/-- `bpf(int cmd, const bpf_attr& attr)`: issue the multiplexed syscall
with the full union size and return its result unchanged. -/
def bpf (s : Syscall) (cmd : Nat) (attr : BpfAttr) : Int :=
  syscallOf s (bpfInvocation cmd attr)

/-- The attribute value `createMap` builds: designated initializer setting
`map_type`, `key_size`, `value_size`, `max_entries`, `map_flags`. -/
def createMapAttr (map_type key_size value_size max_entries map_flags : Nat) : BpfAttr :=
  { map_type := map_type, key_size := key_size, value_size := value_size,
    max_entries := max_entries, map_flags := map_flags }

/-- `createMap`: issue `BPF_MAP_CREATE`. -/
def createMap (s : Syscall) (map_type key_size value_size max_entries map_flags : Nat) : Int :=
  bpf s BPF_MAP_CREATE (createMapAttr map_type key_size value_size max_entries map_flags)

/-- The attribute value `writeToMapEntry` builds: `map_fd` from the cast
descriptor, `key`/`value` as the numeric buffer addresses, `flags`. -/
def writeToMapEntryAttr (map_fd : Int) (key value flags : Nat) : BpfAttr :=
  { map_fd := toU32 map_fd, key := key, value := value, flags := flags }

/-- `writeToMapEntry`: issue `BPF_MAP_UPDATE_ELEM`. -/
def writeToMapEntry (s : Syscall) (map_fd : Int) (key value flags : Nat) : Int :=
  bpf s BPF_MAP_UPDATE_ELEM (writeToMapEntryAttr map_fd key value flags)

/-- The attribute value `findMapEntry` builds. -/
def findMapEntryAttr (map_fd : Int) (key value : Nat) : BpfAttr :=
  { map_fd := toU32 map_fd, key := key, value := value }

/-- `findMapEntry`: issue `BPF_MAP_LOOKUP_ELEM`. -/
def findMapEntry (s : Syscall) (map_fd : Int) (key value : Nat) : Int :=
  bpf s BPF_MAP_LOOKUP_ELEM (findMapEntryAttr map_fd key value)

/-- The attribute value `deleteMapEntry` builds. -/
def deleteMapEntryAttr (map_fd : Int) (key : Nat) : BpfAttr :=
  { map_fd := toU32 map_fd, key := key }

/-- `deleteMapEntry`: issue `BPF_MAP_DELETE_ELEM`. -/
def deleteMapEntry (s : Syscall) (map_fd : Int) (key : Nat) : Int :=
  bpf s BPF_MAP_DELETE_ELEM (deleteMapEntryAttr map_fd key)

/-- The attribute value `getNextMapKey` builds. -/
def getNextMapKeyAttr (map_fd : Int) (key next_key : Nat) : BpfAttr :=
  { map_fd := toU32 map_fd, key := key, next_key := next_key }

/-- `getNextMapKey`: issue `BPF_MAP_GET_NEXT_KEY`. -/
def getNextMapKey (s : Syscall) (map_fd : Int) (key next_key : Nat) : Int :=
  bpf s BPF_MAP_GET_NEXT_KEY (getNextMapKeyAttr map_fd key next_key)

/-- `getFirstMapKey`: literal delegation to `getNextMapKey` with the key
pointer `NULL` (address zero), exactly as in the source. -/
def getFirstMapKey (s : Syscall) (map_fd : Int) (firstKey : Nat) : Int :=
  getNextMapKey s map_fd 0 firstKey

/-- The attribute value `bpfFdPin` builds. -/
def bpfFdPinAttr (map_fd : Int) (pathname : Nat) : BpfAttr :=
  { pathname := pathname, bpf_fd := toU32 map_fd }

/-- `bpfFdPin`: issue `BPF_OBJ_PIN`. -/
def bpfFdPin (s : Syscall) (map_fd : Int) (pathname : Nat) : Int :=
  bpf s BPF_OBJ_PIN (bpfFdPinAttr map_fd pathname)

/-- The attribute value `bpfFdGet` builds. -/
def bpfFdGetAttr (pathname flag : Nat) : BpfAttr :=
  { pathname := pathname, file_flags := flag }

/-- `bpfFdGet`: issue `BPF_OBJ_GET`. -/
def bpfFdGet (s : Syscall) (pathname flag : Nat) : Int :=
  bpf s BPF_OBJ_GET (bpfFdGetAttr pathname flag)

/-- `mapRetrieve`: literal delegation to `bpfFdGet`. -/
def mapRetrieve (s : Syscall) (pathname flag : Nat) : Int :=
  bpfFdGet s pathname flag

/-- The attribute value `attachProgram` builds. -/
def attachProgramAttr (type : Nat) (prog_fd cg_fd : Int) : BpfAttr :=
  { target_fd := toU32 cg_fd, attach_bpf_fd := toU32 prog_fd, attach_type := type }

/-- `attachProgram`: issue `BPF_PROG_ATTACH`. -/
def attachProgram (s : Syscall) (type : Nat) (prog_fd cg_fd : Int) : Int :=
  bpf s BPF_PROG_ATTACH (attachProgramAttr type prog_fd cg_fd)

/-- The attribute value `detachProgram` builds. -/
def detachProgramAttr (type : Nat) (cg_fd : Int) : BpfAttr :=
  { target_fd := toU32 cg_fd, attach_type := type }

/-- `detachProgram`: issue `BPF_PROG_DETACH`. -/
def detachProgram (s : Syscall) (type : Nat) (cg_fd : Int) : Int :=
  bpf s BPF_PROG_DETACH (detachProgramAttr type cg_fd)

end BpfUtils

namespace BpfUtils

/-- Key and value buffers as byte sequences. -/
abbrev Bytes := List Nat

/-- Association-list lookup by key, first binding wins. -/
def alookup {α β : Type} [DecidableEq α] : List (α × β) → α → Option β
  | [], _ => none
  | e :: l, a => if e.1 = a then some e.2 else alookup l a

/-- Replace the binding of a key in place, or append a fresh binding at the
end (so insertion order is preserved for iteration). -/
def setKey {α β : Type} [DecidableEq α] : List (α × β) → α → β → List (α × β)
  | [], a, b => [(a, b)]
  | e :: l, a, b => if e.1 = a then (a, b) :: l else e :: setKey l a b

/-- Remove every binding of a key. -/
def removeKey {α β : Type} [DecidableEq α] : List (α × β) → α → List (α × β)
  | [], _ => []
  | e :: l, a => if e.1 = a then removeKey l a else e :: removeKey l a

/-- Modelled from the spec: one kernel BPF map object — "a kernel-resident
key/value store" with the creation-time key size, value size and maximum
entry count; entries kept in insertion order. -/
structure MapObj where
  keySize : Nat
  valueSize : Nat
  maxEntries : Nat
  entries : List (Bytes × Bytes)
deriving DecidableEq, Repr

/-- Modelled from the spec: the kernel-side state the syscall acts on,
absent from `src/` — the table of live map objects, the descriptor table
(each open descriptor names one object), the pinned-path table of the BPF
pseudo-filesystem, and the program attachments keyed by attach point
(attach-type tag and target descriptor). -/
structure Kern where
  objs : List (Nat × MapObj)
  fds : List (Nat × Nat)
  paths : List (String × Nat)
  attachments : List ((Nat × Nat) × Nat)
  nextFd : Nat
  nextObj : Nat
deriving DecidableEq, Repr

/-- The map object an open descriptor denotes, with its object id. -/
def mapOfFd (k : Kern) (fd : Nat) : Option (Nat × MapObj) :=
  match alookup k.fds fd with
  | none => none
  | some oid =>
    match alookup k.objs oid with
    | none => none
    | some m => some (oid, m)

/-- Install a new version of one object (the descriptor table, path table
and attachments are untouched). -/
def setObj (k : Kern) (oid : Nat) (m : MapObj) : Kern :=
  { k with objs := (oid, m) :: k.objs }

/-- Errno `ENOENT`: the kernel's "not found" / iteration-exhausted code. -/
def ENOENT : Int := 2

/-- Errno `EBADF`: bad file descriptor. -/
def EBADF : Int := 9

/-- Errno `EEXIST`: the pin path already exists. -/
def EEXIST : Int := 17

/-- Errno `EINVAL`: kernel-rejected argument. -/
def EINVAL : Int := 22

/-- Errno `ENOSPC`: map full, no space for a fresh key. -/
def ENOSPC : Int := 28

/-- Modelled from the spec: the kernel's `BPF_MAP_CREATE` — accept a
combination with positive key size, value size and entry budget, allocate
a fresh empty map object and return a fresh descriptor for it; reject
other combinations with a negative result. The map-type tag and flag bits
select kernel-internal representations the spec does not distinguish, so
the model keeps one generic key/value store. -/
def kCreateMap (k : Kern) (ks vs me : Nat) : Int × Kern :=
  if 0 < ks ∧ 0 < vs ∧ 0 < me then
    (Int.ofNat k.nextFd,
      { k with
        objs := (k.nextObj, ⟨ks, vs, me, []⟩) :: k.objs,
        fds := (k.nextFd, k.nextObj) :: k.fds,
        nextFd := k.nextFd + 1, nextObj := k.nextObj + 1 })
  else (-EINVAL, k)

/-- Modelled from the spec: the kernel's `BPF_MAP_UPDATE_ELEM` — write a
key/value pair into the map a descriptor denotes; fail on a bad
descriptor, on buffer sizes that disagree with the map, or on a full map
receiving a fresh key. The write-mode flag selects overwrite policy the
claims do not exercise, so the model always overwrites (`BPF_ANY`). -/
def kWrite (k : Kern) (fd : Nat) (key val : Bytes) (_fl : Nat) : Int × Kern :=
  match mapOfFd k fd with
  | none => (-EBADF, k)
  | some (oid, m) =>
    if key.length = m.keySize ∧ val.length = m.valueSize then
      if (alookup m.entries key).isSome ∨ m.entries.length < m.maxEntries then
        (0, setObj k oid { m with entries := setKey m.entries key val })
      else (-ENOSPC, k)
    else (-EINVAL, k)

/-- Modelled from the spec: the kernel's `BPF_MAP_LOOKUP_ELEM` — populate
the output value buffer with the bytes stored under the key, or fail with
"not found"; the state is untouched. -/
def kFind (k : Kern) (fd : Nat) (key : Bytes) : Int × Option Bytes × Kern :=
  match mapOfFd k fd with
  | none => (-EBADF, none, k)
  | some (_, m) =>
    match alookup m.entries key with
    | some v => (0, some v, k)
    | none => (-ENOENT, none, k)

/-- Modelled from the spec: the kernel's `BPF_MAP_DELETE_ELEM` — remove
the key's entry, or fail with "not found". -/
def kDelete (k : Kern) (fd : Nat) (key : Bytes) : Int × Kern :=
  match mapOfFd k fd with
  | none => (-EBADF, k)
  | some (oid, m) =>
    match alookup m.entries key with
    | some _ => (0, setObj k oid { m with entries := removeKey m.entries key })
    | none => (-ENOENT, k)

/-- The key stored immediately after the given key, in the map's entry
order. -/
def nextOf : List (Bytes × Bytes) → Bytes → Option Bytes
  | [], _ => none
  | e :: rest, p => if e.1 = p then rest.head?.map Prod.fst else nextOf rest p

/-- Modelled from the spec: the kernel's `BPF_MAP_GET_NEXT_KEY` — with no
prior key, populate the output buffer with the first key; with a prior
key, with the key after it; fail with the "exhausted" code after the last
key (and on a map with no keys); the state is untouched. -/
def kGetNextKey (k : Kern) (fd : Nat) (key : Option Bytes) : Int × Option Bytes × Kern :=
  match mapOfFd k fd with
  | none => (-EBADF, none, k)
  | some (_, m) =>
    match key with
    | none =>
      match m.entries with
      | [] => (-ENOENT, none, k)
      | e :: _ => (0, some e.1, k)
    | some p =>
      match nextOf m.entries p with
      | some nk => (0, some nk, k)
      | none => (-ENOENT, none, k)

/-- Modelled from the spec: the kernel's `BPF_OBJ_PIN` — give the object a
descriptor denotes a persistent name in the pin pseudo-filesystem; fail if
the path already exists or the descriptor is bad. -/
def kPin (k : Kern) (fd : Nat) (path : String) : Int × Kern :=
  match alookup k.paths path with
  | some _ => (-EEXIST, k)
  | none =>
    match alookup k.fds fd with
    | none => (-EBADF, k)
    | some oid => (0, { k with paths := (path, oid) :: k.paths })

/-- Modelled from the spec: the kernel's `BPF_OBJ_GET` — open a fresh
descriptor for the object pinned at a path; fail with "not found" on an
unpinned path. -/
def kGet (k : Kern) (path : String) : Int × Kern :=
  match alookup k.paths path with
  | none => (-ENOENT, k)
  | some oid =>
    (Int.ofNat k.nextFd, { k with fds := (k.nextFd, oid) :: k.fds, nextFd := k.nextFd + 1 })

/-- Modelled from the spec: the kernel's `BPF_PROG_ATTACH` — install the
program at the attach point named by the attach-type tag and the target
control-group descriptor. -/
def kAttach (k : Kern) (t progFd cg : Nat) : Int × Kern :=
  (0, { k with attachments := ((t, cg), progFd) :: k.attachments })

/-- Modelled from the spec: the kernel's `BPF_PROG_DETACH` — remove
whatever is attached at the attach point, or fail with "nothing attached". -/
def kDetach (k : Kern) (t cg : Nat) : Int × Kern :=
  match alookup k.attachments (t, cg) with
  | some _ => (0, { k with attachments := removeKey k.attachments (t, cg) })
  | none => (-ENOENT, k)

/-- The keys of a map's entry list, in storage order. -/
def keysOf (es : List (Bytes × Bytes)) : List Bytes := es.map Prod.fst

/-- The key-enumeration loop of the spec's iteration protocol: start from
the given prior key (`none` meaning "no prior key"), feed each key the
kernel returns back into the next call, and stop as soon as a call fails;
the fuel bounds the number of `getNextKey` calls issued. -/
def enumerate (k : Kern) (fd : Nat) : Nat → Option Bytes → List Bytes
  | 0, _ => []
  | fuel + 1, cur =>
    match (kGetNextKey k fd cur).2.1 with
    | some nk => nk :: enumerate k fd fuel (some nk)
    | none => []

/-- A kernel state with no objects, descriptors, pins or attachments. -/
def emptyKern : Kern := ⟨[], [], [], [], 0, 0⟩

/-- A concrete three-entry map with one-byte keys and values. -/
def demoMap : MapObj := ⟨1, 1, 3, [([1], [10]), ([2], [20]), ([3], [30])]⟩

/-- A concrete kernel state holding `demoMap` as object 0 behind
descriptor 5, with no pins and no attachments. -/
def demoKern : Kern := ⟨[(0, demoMap)], [(5, 0)], [], [], 6, 1⟩

end BpfUtils

namespace BpfUtils

theorem alookup_cons_self {α β : Type} [DecidableEq α] (a : α) (b : β) (l : List (α × β)) :
    alookup ((a, b) :: l) a = some b := by
  simp [alookup]

theorem alookup_cons_agree {α β : Type} [DecidableEq α] {l : List (α × β)} {a : α} {b : β}
    (x : α) (h : alookup l a = some b) : alookup ((x, b) :: l) a = some b := by
  by_cases hx : x = a <;> simp [alookup, hx, h]

theorem alookup_setKey_self {α β : Type} [DecidableEq α] (l : List (α × β)) (a : α) (b : β) :
    alookup (setKey l a b) a = some b := by
  induction l with
  | nil => simp [setKey, alookup]
  | cons e l ih =>
    by_cases h : e.1 = a
    · simp [setKey, h, alookup]
    · simp [setKey, h, alookup, ih]

theorem alookup_removeKey_self {α β : Type} [DecidableEq α] (l : List (α × β)) (a : α) :
    alookup (removeKey l a) a = none := by
  induction l with
  | nil => simp [removeKey, alookup]
  | cons e l ih =>
    by_cases h : e.1 = a
    · simp [removeKey, h, ih]
    · simp [removeKey, h, alookup, ih]

end BpfUtils

namespace BpfUtils

/-- Claim C1: every operation's `bpf_attr` value is fully zero-initialized
before the command-specific fields are assigned, so every field outside
that command's explicitly set field set is zero. -/
theorem attr_fields_outside_command_are_zero :
    (∀ a b c d e, (createMapAttr a b c d e).map_fd = 0 ∧ (createMapAttr a b c d e).key = 0 ∧
      (createMapAttr a b c d e).value = 0 ∧ (createMapAttr a b c d e).next_key = 0 ∧
      (createMapAttr a b c d e).flags = 0 ∧ (createMapAttr a b c d e).pathname = 0 ∧
      (createMapAttr a b c d e).bpf_fd = 0 ∧ (createMapAttr a b c d e).file_flags = 0 ∧
      (createMapAttr a b c d e).target_fd = 0 ∧ (createMapAttr a b c d e).attach_bpf_fd = 0 ∧
      (createMapAttr a b c d e).attach_type = 0) ∧
    (∀ fd k v fl, (writeToMapEntryAttr fd k v fl).map_type = 0 ∧
      (writeToMapEntryAttr fd k v fl).key_size = 0 ∧
      (writeToMapEntryAttr fd k v fl).value_size = 0 ∧
      (writeToMapEntryAttr fd k v fl).max_entries = 0 ∧
      (writeToMapEntryAttr fd k v fl).map_flags = 0 ∧
      (writeToMapEntryAttr fd k v fl).next_key = 0 ∧
      (writeToMapEntryAttr fd k v fl).pathname = 0 ∧
      (writeToMapEntryAttr fd k v fl).bpf_fd = 0 ∧
      (writeToMapEntryAttr fd k v fl).file_flags = 0 ∧
      (writeToMapEntryAttr fd k v fl).target_fd = 0 ∧
      (writeToMapEntryAttr fd k v fl).attach_bpf_fd = 0 ∧
      (writeToMapEntryAttr fd k v fl).attach_type = 0) ∧
    (∀ fd k v, (findMapEntryAttr fd k v).map_type = 0 ∧
      (findMapEntryAttr fd k v).key_size = 0 ∧ (findMapEntryAttr fd k v).value_size = 0 ∧
      (findMapEntryAttr fd k v).max_entries = 0 ∧ (findMapEntryAttr fd k v).map_flags = 0 ∧
      (findMapEntryAttr fd k v).next_key = 0 ∧ (findMapEntryAttr fd k v).flags = 0 ∧
      (findMapEntryAttr fd k v).pathname = 0 ∧ (findMapEntryAttr fd k v).bpf_fd = 0 ∧
      (findMapEntryAttr fd k v).file_flags = 0 ∧ (findMapEntryAttr fd k v).target_fd = 0 ∧
      (findMapEntryAttr fd k v).attach_bpf_fd = 0 ∧ (findMapEntryAttr fd k v).attach_type = 0) ∧
    (∀ fd k, (deleteMapEntryAttr fd k).map_type = 0 ∧
      (deleteMapEntryAttr fd k).key_size = 0 ∧ (deleteMapEntryAttr fd k).value_size = 0 ∧
      (deleteMapEntryAttr fd k).max_entries = 0 ∧ (deleteMapEntryAttr fd k).map_flags = 0 ∧
      (deleteMapEntryAttr fd k).value = 0 ∧ (deleteMapEntryAttr fd k).next_key = 0 ∧
      (deleteMapEntryAttr fd k).flags = 0 ∧ (deleteMapEntryAttr fd k).pathname = 0 ∧
      (deleteMapEntryAttr fd k).bpf_fd = 0 ∧ (deleteMapEntryAttr fd k).file_flags = 0 ∧
      (deleteMapEntryAttr fd k).target_fd = 0 ∧ (deleteMapEntryAttr fd k).attach_bpf_fd = 0 ∧
      (deleteMapEntryAttr fd k).attach_type = 0) ∧
    (∀ fd k nk, (getNextMapKeyAttr fd k nk).map_type = 0 ∧
      (getNextMapKeyAttr fd k nk).key_size = 0 ∧ (getNextMapKeyAttr fd k nk).value_size = 0 ∧
      (getNextMapKeyAttr fd k nk).max_entries = 0 ∧ (getNextMapKeyAttr fd k nk).map_flags = 0 ∧
      (getNextMapKeyAttr fd k nk).value = 0 ∧ (getNextMapKeyAttr fd k nk).flags = 0 ∧
      (getNextMapKeyAttr fd k nk).pathname = 0 ∧ (getNextMapKeyAttr fd k nk).bpf_fd = 0 ∧
      (getNextMapKeyAttr fd k nk).file_flags = 0 ∧ (getNextMapKeyAttr fd k nk).target_fd = 0 ∧
      (getNextMapKeyAttr fd k nk).attach_bpf_fd = 0 ∧
      (getNextMapKeyAttr fd k nk).attach_type = 0) ∧
    (∀ fd p, (bpfFdPinAttr fd p).map_type = 0 ∧
      (bpfFdPinAttr fd p).key_size = 0 ∧ (bpfFdPinAttr fd p).value_size = 0 ∧
      (bpfFdPinAttr fd p).max_entries = 0 ∧ (bpfFdPinAttr fd p).map_flags = 0 ∧
      (bpfFdPinAttr fd p).map_fd = 0 ∧ (bpfFdPinAttr fd p).key = 0 ∧
      (bpfFdPinAttr fd p).value = 0 ∧ (bpfFdPinAttr fd p).next_key = 0 ∧
      (bpfFdPinAttr fd p).flags = 0 ∧ (bpfFdPinAttr fd p).file_flags = 0 ∧
      (bpfFdPinAttr fd p).target_fd = 0 ∧ (bpfFdPinAttr fd p).attach_bpf_fd = 0 ∧
      (bpfFdPinAttr fd p).attach_type = 0) ∧
    (∀ p f, (bpfFdGetAttr p f).map_type = 0 ∧
      (bpfFdGetAttr p f).key_size = 0 ∧ (bpfFdGetAttr p f).value_size = 0 ∧
      (bpfFdGetAttr p f).max_entries = 0 ∧ (bpfFdGetAttr p f).map_flags = 0 ∧
      (bpfFdGetAttr p f).map_fd = 0 ∧ (bpfFdGetAttr p f).key = 0 ∧
      (bpfFdGetAttr p f).value = 0 ∧ (bpfFdGetAttr p f).next_key = 0 ∧
      (bpfFdGetAttr p f).flags = 0 ∧ (bpfFdGetAttr p f).bpf_fd = 0 ∧
      (bpfFdGetAttr p f).target_fd = 0 ∧ (bpfFdGetAttr p f).attach_bpf_fd = 0 ∧
      (bpfFdGetAttr p f).attach_type = 0) ∧
    (∀ t pf cg, (attachProgramAttr t pf cg).map_type = 0 ∧
      (attachProgramAttr t pf cg).key_size = 0 ∧ (attachProgramAttr t pf cg).value_size = 0 ∧
      (attachProgramAttr t pf cg).max_entries = 0 ∧ (attachProgramAttr t pf cg).map_flags = 0 ∧
      (attachProgramAttr t pf cg).map_fd = 0 ∧ (attachProgramAttr t pf cg).key = 0 ∧
      (attachProgramAttr t pf cg).value = 0 ∧ (attachProgramAttr t pf cg).next_key = 0 ∧
      (attachProgramAttr t pf cg).flags = 0 ∧ (attachProgramAttr t pf cg).pathname = 0 ∧
      (attachProgramAttr t pf cg).bpf_fd = 0 ∧ (attachProgramAttr t pf cg).file_flags = 0) ∧
    (∀ t cg, (detachProgramAttr t cg).map_type = 0 ∧
      (detachProgramAttr t cg).key_size = 0 ∧ (detachProgramAttr t cg).value_size = 0 ∧
      (detachProgramAttr t cg).max_entries = 0 ∧ (detachProgramAttr t cg).map_flags = 0 ∧
      (detachProgramAttr t cg).map_fd = 0 ∧ (detachProgramAttr t cg).key = 0 ∧
      (detachProgramAttr t cg).value = 0 ∧ (detachProgramAttr t cg).next_key = 0 ∧
      (detachProgramAttr t cg).flags = 0 ∧ (detachProgramAttr t cg).pathname = 0 ∧
      (detachProgramAttr t cg).bpf_fd = 0 ∧ (detachProgramAttr t cg).file_flags = 0 ∧
      (detachProgramAttr t cg).attach_bpf_fd = 0) := by
  refine ⟨?_, ?_, ?_, ?_, ?_, ?_, ?_, ?_, ?_⟩ <;> intros <;>
    simp [createMapAttr, writeToMapEntryAttr, findMapEntryAttr, deleteMapEntryAttr,
      getNextMapKeyAttr, bpfFdPinAttr, bpfFdGetAttr, attachProgramAttr, detachProgramAttr]

/-- Claim C8: the first-key operation is exactly the next-key operation
with no prior key (`NULL` key pointer), for every syscall interpretation,
map descriptor and output buffer address: same invocation, same result. -/
theorem getFirstMapKey_eq_getNextMapKey_null :
    ∀ (s : Syscall) (map_fd : Int) (firstKey : Nat),
      getFirstMapKey s map_fd firstKey = getNextMapKey s map_fd 0 firstKey ∧
      getFirstMapKey s map_fd firstKey =
        syscallOf s (bpfInvocation BPF_MAP_GET_NEXT_KEY (getNextMapKeyAttr map_fd 0 firstKey)) :=
  fun _ _ _ => ⟨rfl, rfl⟩

/-- Claim C10: every operation issues the multiplexed syscall with the size
argument equal to the full size of the whole `bpf_attr` union, never a
command-specific portion: each wrapper's result is the syscall
interpretation applied to an invocation whose size is `sizeofBpfAttr`. -/
theorem every_command_passes_full_union_size :
    (∀ cmd attr, (bpfInvocation cmd attr).size = sizeofBpfAttr) ∧
    (∀ s a b c d e, createMap s a b c d e =
      syscallOf s (bpfInvocation BPF_MAP_CREATE (createMapAttr a b c d e))) ∧
    (∀ s fd k v fl, writeToMapEntry s fd k v fl =
      syscallOf s (bpfInvocation BPF_MAP_UPDATE_ELEM (writeToMapEntryAttr fd k v fl))) ∧
    (∀ s fd k v, findMapEntry s fd k v =
      syscallOf s (bpfInvocation BPF_MAP_LOOKUP_ELEM (findMapEntryAttr fd k v))) ∧
    (∀ s fd k, deleteMapEntry s fd k =
      syscallOf s (bpfInvocation BPF_MAP_DELETE_ELEM (deleteMapEntryAttr fd k))) ∧
    (∀ s fd k nk, getNextMapKey s fd k nk =
      syscallOf s (bpfInvocation BPF_MAP_GET_NEXT_KEY (getNextMapKeyAttr fd k nk))) ∧
    (∀ s fd fk, getFirstMapKey s fd fk =
      syscallOf s (bpfInvocation BPF_MAP_GET_NEXT_KEY (getNextMapKeyAttr fd 0 fk))) ∧
    (∀ s fd p, bpfFdPin s fd p =
      syscallOf s (bpfInvocation BPF_OBJ_PIN (bpfFdPinAttr fd p))) ∧
    (∀ s p f, bpfFdGet s p f =
      syscallOf s (bpfInvocation BPF_OBJ_GET (bpfFdGetAttr p f))) ∧
    (∀ s p f, mapRetrieve s p f =
      syscallOf s (bpfInvocation BPF_OBJ_GET (bpfFdGetAttr p f))) ∧
    (∀ s t pf cg, attachProgram s t pf cg =
      syscallOf s (bpfInvocation BPF_PROG_ATTACH (attachProgramAttr t pf cg))) ∧
    (∀ s t cg, detachProgram s t cg =
      syscallOf s (bpfInvocation BPF_PROG_DETACH (detachProgramAttr t cg))) :=
  ⟨fun _ _ => rfl, fun _ _ _ _ _ _ => rfl, fun _ _ _ _ _ => rfl, fun _ _ _ _ => rfl,
   fun _ _ _ => rfl, fun _ _ _ _ => rfl, fun _ _ _ => rfl, fun _ _ _ => rfl,
   fun _ _ _ => rfl, fun _ _ _ => rfl, fun _ _ _ _ => rfl, fun _ _ _ => rfl⟩

/-- Claim C2: every wrapper returns exactly the result of the single
underlying syscall invocation, verbatim, for every syscall interpretation
(no retry, masking or local recovery around it); and in the kernel model
every operation's result is non-negative exactly on success and negative
on failure, a failing operation leaving the state untouched. -/
theorem results_propagated_verbatim_and_signed :
    (∀ s a b c d e, createMap s a b c d e =
      s.call BPF_MAP_CREATE (createMapAttr a b c d e) sizeofBpfAttr) ∧
    (∀ s fd k v fl, writeToMapEntry s fd k v fl =
      s.call BPF_MAP_UPDATE_ELEM (writeToMapEntryAttr fd k v fl) sizeofBpfAttr) ∧
    (∀ s fd k v, findMapEntry s fd k v =
      s.call BPF_MAP_LOOKUP_ELEM (findMapEntryAttr fd k v) sizeofBpfAttr) ∧
    (∀ s fd k, deleteMapEntry s fd k =
      s.call BPF_MAP_DELETE_ELEM (deleteMapEntryAttr fd k) sizeofBpfAttr) ∧
    (∀ s fd k nk, getNextMapKey s fd k nk =
      s.call BPF_MAP_GET_NEXT_KEY (getNextMapKeyAttr fd k nk) sizeofBpfAttr) ∧
    (∀ s fd p, bpfFdPin s fd p =
      s.call BPF_OBJ_PIN (bpfFdPinAttr fd p) sizeofBpfAttr) ∧
    (∀ s p f, bpfFdGet s p f =
      s.call BPF_OBJ_GET (bpfFdGetAttr p f) sizeofBpfAttr) ∧
    (∀ s t pf cg, attachProgram s t pf cg =
      s.call BPF_PROG_ATTACH (attachProgramAttr t pf cg) sizeofBpfAttr) ∧
    (∀ s t cg, detachProgram s t cg =
      s.call BPF_PROG_DETACH (detachProgramAttr t cg) sizeofBpfAttr) ∧
    (∀ k ks vs me, 0 ≤ (kCreateMap k ks vs me).1 ∨
      ((kCreateMap k ks vs me).1 < 0 ∧ (kCreateMap k ks vs me).2 = k)) ∧
    (∀ k fd key val fl, (kWrite k fd key val fl).1 = 0 ∨
      ((kWrite k fd key val fl).1 < 0 ∧ (kWrite k fd key val fl).2 = k)) ∧
    (∀ k fd key, ((kFind k fd key).1 = 0 ∧ ((kFind k fd key).2.1).isSome) ∨
      ((kFind k fd key).1 < 0 ∧ (kFind k fd key).2.1 = none)) ∧
    (∀ k fd key, (kDelete k fd key).1 = 0 ∨
      ((kDelete k fd key).1 < 0 ∧ (kDelete k fd key).2 = k)) ∧
    (∀ k fd cur, ((kGetNextKey k fd cur).1 = 0 ∧ ((kGetNextKey k fd cur).2.1).isSome) ∨
      ((kGetNextKey k fd cur).1 < 0 ∧ (kGetNextKey k fd cur).2.1 = none)) ∧
    (∀ k fd p, (kPin k fd p).1 = 0 ∨
      ((kPin k fd p).1 < 0 ∧ (kPin k fd p).2 = k)) ∧
    (∀ k p, 0 ≤ (kGet k p).1 ∨ ((kGet k p).1 < 0 ∧ (kGet k p).2 = k)) ∧
    (∀ k t pf cg, (kAttach k t pf cg).1 = 0) ∧
    (∀ k t cg, (kDetach k t cg).1 = 0 ∨
      ((kDetach k t cg).1 < 0 ∧ (kDetach k t cg).2 = k)) := by
  refine ⟨fun _ _ _ _ _ _ => rfl, fun _ _ _ _ _ => rfl, fun _ _ _ _ => rfl,
    fun _ _ _ => rfl, fun _ _ _ _ => rfl, fun _ _ _ => rfl, fun _ _ _ => rfl,
    fun _ _ _ _ => rfl, fun _ _ _ => rfl, ?_, ?_, ?_, ?_, ?_, ?_, ?_, ?_, ?_⟩
  · intro k ks vs me
    unfold kCreateMap
    split
    · left
      exact Int.ofNat_nonneg k.nextFd
    · right
      exact ⟨by norm_num [EINVAL, EBADF, ENOENT, ENOSPC, EEXIST], rfl⟩
  · intro k fd key val fl
    unfold kWrite
    split
    · right
      exact ⟨by norm_num [EINVAL, EBADF, ENOENT, ENOSPC, EEXIST], rfl⟩
    · split
      · split
        · left
          rfl
        · right
          exact ⟨by norm_num [EINVAL, EBADF, ENOENT, ENOSPC, EEXIST], rfl⟩
      · right
        exact ⟨by norm_num [EINVAL, EBADF, ENOENT, ENOSPC, EEXIST], rfl⟩
  · intro k fd key
    unfold kFind
    split
    · right
      exact ⟨by norm_num [EINVAL, EBADF, ENOENT, ENOSPC, EEXIST], rfl⟩
    · split
      · left
        exact ⟨rfl, rfl⟩
      · right
        exact ⟨by norm_num [EINVAL, EBADF, ENOENT, ENOSPC, EEXIST], rfl⟩
  · intro k fd key
    unfold kDelete
    split
    · right
      exact ⟨by norm_num [EINVAL, EBADF, ENOENT, ENOSPC, EEXIST], rfl⟩
    · split
      · left
        rfl
      · right
        exact ⟨by norm_num [EINVAL, EBADF, ENOENT, ENOSPC, EEXIST], rfl⟩
  · intro k fd cur
    unfold kGetNextKey
    split
    · right
      exact ⟨by norm_num [EINVAL, EBADF, ENOENT, ENOSPC, EEXIST], rfl⟩
    · split
      · split
        · right
          exact ⟨by norm_num [EINVAL, EBADF, ENOENT, ENOSPC, EEXIST], rfl⟩
        · left
          exact ⟨rfl, rfl⟩
      · split
        · left
          exact ⟨rfl, rfl⟩
        · right
          exact ⟨by norm_num [EINVAL, EBADF, ENOENT, ENOSPC, EEXIST], rfl⟩
  · intro k fd p
    unfold kPin
    split
    · right
      exact ⟨by norm_num [EINVAL, EBADF, ENOENT, ENOSPC, EEXIST], rfl⟩
    · split
      · right
        exact ⟨by norm_num [EINVAL, EBADF, ENOENT, ENOSPC, EEXIST], rfl⟩
      · left
        rfl
  · intro k p
    unfold kGet
    split
    · right
      exact ⟨by norm_num [EINVAL, EBADF, ENOENT, ENOSPC, EEXIST], rfl⟩
    · left
      exact Int.ofNat_nonneg k.nextFd
  · intro k t pf cg
    rfl
  · intro k t cg
    unfold kDetach
    split
    · left
      rfl
    · right
      exact ⟨by norm_num [EINVAL, EBADF, ENOENT, ENOSPC, EEXIST], rfl⟩

/-- Claim C3: creating a map with an accepted (key size, value size, max
entries) combination, then writing a key/value pair through the returned
descriptor and immediately reading that key back, succeeds and populates
the output value buffer with the exact bytes written. -/
theorem create_write_find_roundtrip (k : Kern) (ks vs me wf : Nat) (key val : Bytes)
    (hks : 0 < ks) (hvs : 0 < vs) (hme : 0 < me)
    (hk : key.length = ks) (hv : val.length = vs) :
    0 ≤ (kCreateMap k ks vs me).1 ∧
    (kWrite (kCreateMap k ks vs me).2 k.nextFd key val wf).1 = 0 ∧
    (kFind (kWrite (kCreateMap k ks vs me).2 k.nextFd key val wf).2 k.nextFd key).1 = 0 ∧
    (kFind (kWrite (kCreateMap k ks vs me).2 k.nextFd key val wf).2 k.nextFd key).2.1
      = some val := by
  have hc : 0 < ks ∧ 0 < vs ∧ 0 < me := ⟨hks, hvs, hme⟩
  refine ⟨?_, ?_⟩
  · simp [kCreateMap, hc, Int.ofNat_nonneg]
  · simp [kCreateMap, hc, kWrite, kFind, mapOfFd, setObj, setKey, alookup, hk, hv, hme]

/-- Claim C3 witness: the round trip at a concrete state and input. -/
theorem create_write_find_roundtrip_witness :
    (0 < 1 ∧ 0 < 1 ∧ 0 < 4 ∧ ([9] : Bytes).length = 1 ∧ ([77] : Bytes).length = 1) ∧
    0 ≤ (kCreateMap emptyKern 1 1 4).1 ∧
    (kWrite (kCreateMap emptyKern 1 1 4).2 emptyKern.nextFd [9] [77] 0).1 = 0 ∧
    (kFind (kWrite (kCreateMap emptyKern 1 1 4).2 emptyKern.nextFd [9] [77] 0).2
      emptyKern.nextFd [9]).2.1 = some [77] :=
  ⟨by decide,
   (create_write_find_roundtrip emptyKern 1 1 4 0 [9] [77]
      (by decide) (by decide) (by decide) (by decide) (by decide)).1,
   (create_write_find_roundtrip emptyKern 1 1 4 0 [9] [77]
      (by decide) (by decide) (by decide) (by decide) (by decide)).2.1,
   (create_write_find_roundtrip emptyKern 1 1 4 0 [9] [77]
      (by decide) (by decide) (by decide) (by decide) (by decide)).2.2.2⟩

/-- Claim C4: writing a key/value pair, then deleting that key, then
reading it again fails with the "not found" code, and after the delete the
map no longer contains the key. -/
theorem write_delete_find_not_found (k : Kern) (fd oid : Nat) (m : MapObj)
    (key val : Bytes) (wf : Nat)
    (h1 : alookup k.fds fd = some oid) (h2 : alookup k.objs oid = some m)
    (hk : key.length = m.keySize) (hv : val.length = m.valueSize)
    (hroom : (alookup m.entries key).isSome ∨ m.entries.length < m.maxEntries) :
    (kWrite k fd key val wf).1 = 0 ∧
    (kDelete (kWrite k fd key val wf).2 fd key).1 = 0 ∧
    (kFind (kDelete (kWrite k fd key val wf).2 fd key).2 fd key).1 = -ENOENT ∧
    (kFind (kDelete (kWrite k fd key val wf).2 fd key).2 fd key).2.1 = none ∧
    (∀ m2, mapOfFd (kDelete (kWrite k fd key val wf).2 fd key).2 fd = some (oid, m2) →
      alookup m2.entries key = none) := by
  have hm : mapOfFd k fd = some (oid, m) := by simp [mapOfFd, h1, h2]
  simp [kWrite, kDelete, kFind, hm, mapOfFd, setObj, h1, h2, hk, hv, hroom,
    alookup_cons_self, alookup_setKey_self, alookup_removeKey_self]

/-- Claim C4 witness: the write/delete/find sequence at a concrete state. -/
theorem write_delete_find_not_found_witness :
    (alookup demoKern.fds 5 = some 0 ∧ alookup demoKern.objs 0 = some demoMap ∧
      ([2] : Bytes).length = demoMap.keySize ∧ ([42] : Bytes).length = demoMap.valueSize ∧
      (alookup demoMap.entries [2]).isSome = true) ∧
    (kWrite demoKern 5 [2] [42] 0).1 = 0 ∧
    (kDelete (kWrite demoKern 5 [2] [42] 0).2 5 [2]).1 = 0 ∧
    (kFind (kDelete (kWrite demoKern 5 [2] [42] 0).2 5 [2]).2 5 [2]).1 = -ENOENT ∧
    (kFind (kDelete (kWrite demoKern 5 [2] [42] 0).2 5 [2]).2 5 [2]).2.1 = none :=
  ⟨by decide,
   (write_delete_find_not_found demoKern 5 0 demoMap [2] [42] 0
      (by decide) (by decide) (by decide) (by decide) (Or.inl (by decide))).1,
   (write_delete_find_not_found demoKern 5 0 demoMap [2] [42] 0
      (by decide) (by decide) (by decide) (by decide) (Or.inl (by decide))).2.1,
   (write_delete_find_not_found demoKern 5 0 demoMap [2] [42] 0
      (by decide) (by decide) (by decide) (by decide) (Or.inl (by decide))).2.2.1,
   (write_delete_find_not_found demoKern 5 0 demoMap [2] [42] 0
      (by decide) (by decide) (by decide) (by decide) (Or.inl (by decide))).2.2.2.1⟩

/-- Claim C6: attaching a program and then detaching at the same attach
point leaves nothing attached there, so a second detach at that point
fails with the "nothing attached" code. -/
theorem attach_detach_twice (k : Kern) (t pf cg : Nat) :
    (kAttach k t pf cg).1 = 0 ∧
    (kDetach (kAttach k t pf cg).2 t cg).1 = 0 ∧
    alookup ((kDetach (kAttach k t pf cg).2 t cg).2).attachments (t, cg) = none ∧
    (kDetach (kDetach (kAttach k t pf cg).2 t cg).2 t cg).1 = -ENOENT := by
  simp [kAttach, kDetach, alookup_cons_self, alookup_removeKey_self]

/-- Claim C9: no operation that takes a caller-owned descriptor closes or
invalidates it: the descriptor table after the operation is the caller's
descriptor table (and the read-only operations return the state untouched),
so the handle still denotes the same object, success or failure. -/
theorem operations_preserve_caller_fds (k : Kern) (fd : Nat) (key val : Bytes)
    (wf : Nat) (cur : Option Bytes) (p : String) (t pf cg : Nat) :
    (kWrite k fd key val wf).2.fds = k.fds ∧
    (kFind k fd key).2.2 = k ∧
    (kDelete k fd key).2.fds = k.fds ∧
    (kGetNextKey k fd cur).2.2 = k ∧
    (kPin k fd p).2.fds = k.fds ∧
    (kAttach k t pf cg).2.fds = k.fds ∧
    (kDetach k t cg).2.fds = k.fds := by
  refine ⟨?_, ?_, ?_, ?_, ?_, rfl, ?_⟩
  · unfold kWrite
    split
    · rfl
    · split
      · split
        · rfl
        · rfl
      · rfl
  · unfold kFind
    split
    · rfl
    · split
      · rfl
      · rfl
  · unfold kDelete
    split
    · rfl
    · split
      · rfl
      · rfl
  · unfold kGetNextKey
    split
    · rfl
    · split
      · split
        · rfl
        · rfl
      · split
        · rfl
        · rfl
  · unfold kPin
    split
    · rfl
    · split
      · rfl
      · rfl
  · unfold kDetach
    split
    · rfl
    · rfl

theorem nextOf_append (p v : Bytes) (l : List (Bytes × Bytes)) :
    ∀ pre : List (Bytes × Bytes), (keysOf (pre ++ (p, v) :: l)).Nodup →
      nextOf (pre ++ (p, v) :: l) p = l.head?.map Prod.fst := by
  intro pre
  induction pre with
  | nil =>
    intro _
    simp [nextOf]
  | cons e pre ih =>
    intro hnd
    have hnd0 : (e.1 :: keysOf (pre ++ (p, v) :: l)).Nodup := by
      simpa only [keysOf, List.cons_append, List.map_cons] using hnd
    have hparts := List.nodup_cons.mp hnd0
    have hne : e.1 ≠ p := by
      intro h
      apply hparts.1
      rw [h]
      simp [keysOf]
    rw [List.cons_append]
    rw [show nextOf (e :: (pre ++ (p, v) :: l)) p =
        nextOf (pre ++ (p, v) :: l) p by simp [nextOf, hne]]
    exact ih hparts.2

theorem enumerate_aux (k : Kern) (fd oid : Nat) (m : MapObj)
    (h1 : alookup k.fds fd = some oid) (h2 : alookup k.objs oid = some m)
    (hnd : (keysOf m.entries).Nodup) :
    ∀ (rest : List (Bytes × Bytes)) (pre : List (Bytes × Bytes)) (cur : Option Bytes),
      m.entries = pre ++ rest →
      ((cur = none ∧ pre = []) ∨ ∃ p v pre0, pre = pre0 ++ [(p, v)] ∧ cur = some p) →
      enumerate k fd rest.length cur = keysOf rest := by
  have hm : mapOfFd k fd = some (oid, m) := by simp [mapOfFd, h1, h2]
  intro rest
  induction rest with
  | nil =>
    intro pre cur _ _
    simp [enumerate, keysOf]
  | cons e rest ih =>
    intro pre cur hsplit hcur
    have hstep : (kGetNextKey k fd cur).2.1 = some e.1 := by
      rcases hcur with ⟨hc, hp⟩ | ⟨p, v, pre0, hp, hc⟩
      · subst hc
        subst hp
        simp only [List.nil_append] at hsplit
        simp [kGetNextKey, hm, hsplit]
      · subst hc
        subst hp
        have hform : m.entries = pre0 ++ (p, v) :: (e :: rest) := by
          simpa using hsplit
        have hnext : nextOf m.entries p = some e.1 := by
          rw [hform, nextOf_append p v (e :: rest) pre0 (by rw [← hform]; exact hnd)]
          simp
        simp [kGetNextKey, hm, hnext]
    have hrec : enumerate k fd (e :: rest).length cur
        = e.1 :: enumerate k fd rest.length (some e.1) := by
      simp [enumerate, hstep]
    rw [hrec, ih (pre ++ [e]) (some e.1) (by simpa using hsplit)
      (Or.inr ⟨e.1, e.2, pre, by simp, rfl⟩)]
    simp [keysOf]

theorem getNextKey_after_last (k : Kern) (fd oid : Nat) (m : MapObj)
    (h1 : alookup k.fds fd = some oid) (h2 : alookup k.objs oid = some m)
    (hnd : (keysOf m.entries).Nodup)
    (pre : List (Bytes × Bytes)) (p v : Bytes) (hsplit : m.entries = pre ++ [(p, v)]) :
    kGetNextKey k fd (some p) = (-ENOENT, none, k) := by
  have hm : mapOfFd k fd = some (oid, m) := by simp [mapOfFd, h1, h2]
  have hnext : nextOf m.entries p = none := by
    rw [hsplit, nextOf_append p v [] pre (hsplit ▸ hnd)]
    simp
  simp [kGetNextKey, hm, hnext]

/-- Claim C5: starting from no prior key and feeding each returned key
back into `getNextKey`, the iteration visits every key of the map exactly
once, in storage order, and the call made with the last key in hand fails
with the "exhausted" code, so the loop terminates. -/
theorem iteration_visits_every_key_once (k : Kern) (fd oid : Nat) (m : MapObj)
    (h1 : alookup k.fds fd = some oid) (h2 : alookup k.objs oid = some m)
    (hnd : (keysOf m.entries).Nodup) :
    enumerate k fd m.entries.length none = keysOf m.entries ∧
    (enumerate k fd m.entries.length none).Nodup ∧
    (∀ pre p v, m.entries = pre ++ [(p, v)] →
      kGetNextKey k fd (some p) = (-ENOENT, none, k)) := by
  have hall := enumerate_aux k fd oid m h1 h2 hnd m.entries [] none rfl (Or.inl ⟨rfl, rfl⟩)
  refine ⟨hall, ?_, ?_⟩
  · rw [hall]
    exact hnd
  · intro pre p v hsplit
    exact getNextKey_after_last k fd oid m h1 h2 hnd pre p v hsplit

/-- Claim C5 witness: iterating the concrete three-key map {1, 2, 3}
visits [1], [2], [3] exactly once and the call after [3] is exhausted. -/
theorem iteration_visits_every_key_once_witness :
    (alookup demoKern.fds 5 = some 0 ∧ alookup demoKern.objs 0 = some demoMap ∧
      (keysOf demoMap.entries).Nodup) ∧
    enumerate demoKern 5 3 none = [[1], [2], [3]] ∧
    (enumerate demoKern 5 3 none).Nodup ∧
    kGetNextKey demoKern 5 (some [3]) = (-ENOENT, none, demoKern) :=
  ⟨by decide,
   (iteration_visits_every_key_once demoKern 5 0 demoMap rfl rfl (by decide)).1,
   (iteration_visits_every_key_once demoKern 5 0 demoMap rfl rfl (by decide)).2.1,
   (iteration_visits_every_key_once demoKern 5 0 demoMap rfl rfl (by decide)).2.2
     [([1], [10]), ([2], [20])] [3] [30] rfl⟩

/-- Claim C7: pinning a handle at a fresh path and then retrieving a new
handle from that path yields a handle denoting the same kernel object:
a write through either handle is observable by a read through the other. -/
theorem pin_retrieve_same_object (k : Kern) (fd oid : Nat) (m : MapObj)
    (path : String) (key val : Bytes) (wf : Nat)
    (h1 : alookup k.fds fd = some oid) (h2 : alookup k.objs oid = some m)
    (hp : alookup k.paths path = none)
    (hk : key.length = m.keySize) (hv : val.length = m.valueSize)
    (hroom : (alookup m.entries key).isSome ∨ m.entries.length < m.maxEntries) :
    (kPin k fd path).1 = 0 ∧
    (kGet (kPin k fd path).2 path).1 = Int.ofNat k.nextFd ∧
    (kWrite (kGet (kPin k fd path).2 path).2 fd key val wf).1 = 0 ∧
    (kFind (kWrite (kGet (kPin k fd path).2 path).2 fd key val wf).2
      k.nextFd key).2.1 = some val ∧
    (kWrite (kGet (kPin k fd path).2 path).2 k.nextFd key val wf).1 = 0 ∧
    (kFind (kWrite (kGet (kPin k fd path).2 path).2 k.nextFd key val wf).2
      fd key).2.1 = some val := by
  have hfd2 : alookup ((k.nextFd, oid) :: k.fds) fd = some oid := alookup_cons_agree _ h1
  simp [kPin, kGet, kWrite, kFind, mapOfFd, setObj, hp, h1, h2, hfd2, hk, hv, hroom,
    alookup_cons_self, alookup_setKey_self]

/-- Claim C7 witness: the pin/retrieve/write/read sequence at a concrete
state, in both directions. -/
theorem pin_retrieve_same_object_witness :
    (alookup demoKern.fds 5 = some 0 ∧ alookup demoKern.objs 0 = some demoMap ∧
      alookup demoKern.paths "/sys/fs/bpf/demo" = none ∧
      ([1] : Bytes).length = demoMap.keySize ∧ ([99] : Bytes).length = demoMap.valueSize ∧
      (alookup demoMap.entries [1]).isSome = true) ∧
    (kPin demoKern 5 "/sys/fs/bpf/demo").1 = 0 ∧
    (kGet (kPin demoKern 5 "/sys/fs/bpf/demo").2 "/sys/fs/bpf/demo").1 = Int.ofNat 6 ∧
    (kFind (kWrite (kGet (kPin demoKern 5 "/sys/fs/bpf/demo").2 "/sys/fs/bpf/demo").2
      5 [1] [99] 0).2 6 [1]).2.1 = some [99] ∧
    (kFind (kWrite (kGet (kPin demoKern 5 "/sys/fs/bpf/demo").2 "/sys/fs/bpf/demo").2
      6 [1] [99] 0).2 5 [1]).2.1 = some [99] :=
  ⟨by decide,
   (pin_retrieve_same_object demoKern 5 0 demoMap "/sys/fs/bpf/demo" [1] [99] 0
      rfl rfl rfl rfl rfl (Or.inl rfl)).1,
   (pin_retrieve_same_object demoKern 5 0 demoMap "/sys/fs/bpf/demo" [1] [99] 0
      rfl rfl rfl rfl rfl (Or.inl rfl)).2.1,
   (pin_retrieve_same_object demoKern 5 0 demoMap "/sys/fs/bpf/demo" [1] [99] 0
      rfl rfl rfl rfl rfl (Or.inl rfl)).2.2.2.1,
   (pin_retrieve_same_object demoKern 5 0 demoMap "/sys/fs/bpf/demo" [1] [99] 0
      rfl rfl rfl rfl rfl (Or.inl rfl)).2.2.2.2.2⟩

end BpfUtils
